import Mathlib

/-!
# Verification of the attestation-fetching client

Shallow embedding of `pkg/cmd/attestation/api/client.go` (and the data model in
`pkg/cmd/attestation/api/attestation.go`): the retrying request executor built on
`backoff.Retry` with a constant backoff and `WithMaxRetries(bo, 3)`, the paginated
attestation fetcher `getAttestations`, the bundle fan-out `fetchBundleFromAttestations`,
the single-bundle fetch-and-decode `getBundle`, the retry predicate `shouldRetry`,
the trust-domain fetch `getTrustDomain`, and the client constructor `NewLiveClient`.

Conventions of the embedding:
* The bundle payload type is opaque to the client code, so it is a type parameter
  `β`; the intermediate protobuf message type of `getBundle` is a parameter `π`.
* The paged-REST collaborator (`RESTWithNext`) is modelled as the sequence of page
  responses it would serve, one behaviour per page, where a behaviour maps the
  attempt number of the retry loop to that attempt's outcome.  Per the collaborator
  contract, the continuation token (`newURL`) is non-empty exactly when more pages
  exist.
* Every invocation of a collaborator is recorded (as a `RestCall` for REST calls,
  as a count of GETs for bundle fetches) so that "no network call" and
  "invoked exactly n times" claims are statable.
* Errors are explicit values: `RestErr` for REST-layer errors (an `api.HTTPError`
  with a status code, or a non-HTTP connection failure), `ApiError` for the errors
  `getAttestations` and its callers produce, `String` for the `fmt.Errorf`-style
  errors of the bundle path.
-/

namespace GhAttestClient

/-! ## Data model (`attestation.go`) -/

/-- An attestation record: an optional inline bundle and a bundle URL
(`Attestation` in `attestation.go`; the zero value of `BundleURL` is `""`). -/
structure Attestation (β : Type) where
  bundle : Option β
  bundleURL : String
deriving DecidableEq, Repr

/-- One page response of the paged REST collaborator: the deserialized
`AttestationsResponse` plus the continuation URL returned by `RESTWithNext`
(`""` when no further page exists). -/
structure PageResp (β : Type) where
  attestations : List (Attestation β)
  next : String
deriving DecidableEq, Repr

/-- `DefaultLimit` from `client.go`. -/
def DefaultLimit : Int := 30

/-- `maxLimitForFlag` from `client.go`. -/
def maxLimitForFlag : Int := 1000

/-- `maxLimitForFetch` from `client.go`. -/
def maxLimitForFetch : Int := 100

/-! ## Errors -/

/-- An error returned by the REST collaborator: either an `api.HTTPError`
carrying a status code, or any other error (connection failure etc.), which
`errors.As(err, &httpError)` does not match. -/
inductive RestErr where
  | http (statusCode : Int) (msg : String)
  | net (msg : String)
deriving DecidableEq, Repr

/-- `shouldRetry` from `client.go`: true iff the error is an HTTP error whose
status code lies in 500..599. -/
def shouldRetry : RestErr → Bool
  | .http s _ => decide (500 ≤ s) && decide (s ≤ 599)
  | .net _ => false

/-- Errors produced by `getAttestations` and its callers. The dedicated sentinel
`ErrNoAttestationsFound` is its own constructor, distinct by construction from
`fmt.Errorf`-style errors and from propagated REST errors. -/
inductive ApiError where
  | noAttestationsFound
  | errorf (msg : String)
  | rest (e : RestErr)
deriving DecidableEq, Repr

/-- `ErrNoAttestationsFound` from `attestation.go`. -/
def ErrNoAttestationsFound : ApiError := ApiError.noAttestationsFound

/-- The `Error()` string of an `ApiError`; the sentinel was created by
`errors.New("no attestations found")`. -/
def ApiError.message : ApiError → String
  | .noAttestationsFound => "no attestations found"
  | .errorf m => m
  | .rest (.http _ m) => m
  | .rest (.net m) => m

/-- The message of the input-validation error raised by `getAttestations`:
`fmt.Errorf("limit must be greater than 0 and less than or equal to %d", maxLimitForFlag)`. -/
def invalidLimitMsg : String :=
  "limit must be greater than 0 and less than or equal to " ++ toString maxLimitForFlag

/-! ## Retrying request executor (`backoff.Retry` with constant backoff) -/

/-- Outcome of one invocation of an operation wrapped by `backoff.Retry`:
success, a plain error (retried while attempts remain), or an error wrapped in
`backoff.Permanent` (stops the retry loop immediately). -/
inductive Attempt (ε α : Type) where
  | ok (a : α)
  | retryable (e : ε)
  | permanent (e : ε)

/-- The retry loop of `backoff.Retry`: `op` maps the attempt index to that
attempt's outcome, `fuel` is the number of retries still allowed after the
current attempt.  Returns the final result together with the number of times
the operation was invoked. -/
def retryFrom (op : Nat → Attempt ε α) (start : Nat) : Nat → Except ε α × Nat
  | 0 =>
    match op start with
    | .ok a => (.ok a, 1)
    | .permanent e => (.error e, 1)
    | .retryable e => (.error e, 1)
  | fuel + 1 =>
    match op start with
    | .ok a => (.ok a, 1)
    | .permanent e => (.error e, 1)
    | .retryable _ =>
      let r := retryFrom op (start + 1) fuel
      (r.1, r.2 + 1)

/-- The retry policy used throughout `client.go`: a constant backoff of
`getAttestationRetryInterval` (200 ms) and `backoff.WithMaxRetries(bo, 3)`,
i.e. 1 initial attempt plus at most 3 retries. -/
structure RetryPolicy where
  intervalMillis : Nat
  maxRetries : Nat
deriving DecidableEq, Repr

/-- `backoff.NewConstantBackOff(time.Millisecond * 200)` with `WithMaxRetries(bo, 3)`. -/
def defaultRetryPolicy : RetryPolicy := { intervalMillis := 200, maxRetries := 3 }

/-- `backoff.Retry(op, backoff.WithMaxRetries(bo, pol.maxRetries))`:
run the retry loop from attempt 0. -/
def backoffRetry (pol : RetryPolicy) (op : Nat → Attempt ε α) : Except ε α × Nat :=
  retryFrom op 0 pol.maxRetries

/-- The classification performed by the closures in `getAttestations` and
`getTrustDomain`: a REST error is returned as-is (retried) when `shouldRetry`
holds, and wrapped in `backoff.Permanent` otherwise. -/
def classify (r : Except RestErr α) : Attempt RestErr α :=
  match r with
  | .ok a => .ok a
  | .error e => if shouldRetry e then .retryable e else .permanent e

/-! ## Paginated attestation fetcher (`getAttestations`) -/

/-- The behaviour of the paged REST collaborator for one page: the outcome of
the i-th attempt of the retry loop for that page. -/
abbrev PageBehavior (β : Type) := Nat → Except RestErr (PageResp β)

/-- A collaborator behaviour that serves a fixed page response on every attempt. -/
def pureBehaviors (rs : List (PageResp β)) : List (PageBehavior β) :=
  rs.map (fun r _ => .ok r)

/-- One recorded invocation of the REST collaborator. -/
structure RestCall where
  host : String
  url : String
deriving DecidableEq, Repr

/-- One page fetch through the retrying executor, exactly as in the loop body of
`getAttestations`: `backoff.Retry` around `RESTWithNext` with `shouldRetry`
classification and `WithMaxRetries(bo, 3)`. -/
def fetchPage (p : PageBehavior β) : Except RestErr (PageResp β) × Nat :=
  backoffRetry defaultRetryPolicy (fun i => classify (p i))

/-- The pagination loop of `getAttestations`:
`for url != "" && len(attestations) < limit { ... }`, where each iteration runs
one page fetch through the retrying executor, appends the returned attestations
and advances `url` to the returned continuation URL.  Returns the result
together with the list of collaborator invocations (the same `url` is passed on
every attempt of one page, since the closure only updates `url` on success). -/
def getAttsLoop (host : String) (limit : Nat) :
    List (PageBehavior β) → String → List (Attestation β) →
    Except RestErr (List (Attestation β)) × List RestCall
  | [], _, acc => (.ok acc, [])
  | p :: ps, url, acc =>
    if url = "" ∨ limit ≤ acc.length then (.ok acc, [])
    else
      let r := fetchPage p
      let calls := List.replicate r.2 ⟨host, url⟩
      match r.1 with
      | .error e => (.error e, calls)
      | .ok resp =>
        let rest := getAttsLoop host limit ps resp.next (acc ++ resp.attestations)
        (rest.1, calls ++ rest.2)

/-- The first request URL built by `getAttestations`:
`url = fmt.Sprintf("%s?per_page=%d", url, perPage)` after capping `perPage`
at `maxLimitForFetch`. -/
def firstRequestURL (url : String) (limit : Int) : String :=
  let perPage := if maxLimitForFetch < limit then maxLimitForFetch else limit
  url ++ "?per_page=" ++ toString perPage

/-- The post-loop processing of `getAttestations`: fail with the sentinel when
nothing was accumulated, truncate to `limit` when the last page overshot. -/
def finishAtts (acc : List (Attestation β)) (limit : Int) :
    Except ApiError (List (Attestation β)) :=
  if acc.length = 0 then .error ErrNoAttestationsFound
  else if limit.toNat < acc.length then .ok (acc.take limit.toNat)
  else .ok acc

/-- `getAttestations` from `client.go`: validate the limit, build the first
request URL with the capped per-page size, run the pagination loop, then apply
the post-loop processing.  Also returns the recorded REST invocations. -/
def getAttestations (host : String) (pages : List (PageBehavior β)) (url : String)
    (limit : Int) : Except ApiError (List (Attestation β)) × List RestCall :=
  if limit ≤ 0 ∨ maxLimitForFlag < limit then (.error (.errorf invalidLimitMsg), [])
  else
    match getAttsLoop host limit.toNat pages (firstRequestURL url limit) [] with
    | (.error e, calls) => (.error (.rest e), calls)
    | (.ok acc, calls) => (finishAtts acc limit, calls)

/-! ## Bundle fetch-and-decode (`getBundle`) -/

/-- An HTTP response as seen by `getBundle`: the status code and the body bytes
(the body read is folded into the collaborator; a failing `Get` is an error). -/
structure HttpResponse where
  statusCode : Int
  body : List Nat
deriving DecidableEq, Repr

/-- The collaborators of `getBundle`: the HTTP GET client (indexed by URL and by
the invocation number for that URL), `snappy.Decode`, `protojson.Unmarshal`
(producing a protobuf message of type `π`), and `bundle.NewBundle` (producing a
bundle of type `β`).  The last three are pure external library functions. -/
structure BundleDeps (π β : Type) where
  get : String → Nat → Except String HttpResponse
  snappyDecode : List Nat → Except String (List Nat)
  protojsonUnmarshal : List Nat → Except String π
  newBundle : π → Except String β

/-- One attempt of the retry loop inside `getBundle`: GET the URL; a failing
request or a 5xx status is a plain (retryable) error; a snappy decompression
failure, a protojson unmarshal failure or a bundle construction failure is
wrapped in `backoff.Permanent`. -/
def getBundleAttempt (deps : BundleDeps π β) (url : String) (i : Nat) :
    Attempt String β :=
  match deps.get url i with
  | .error e => .retryable ("request to fetch bundle from URL failed: " ++ e)
  | .ok resp =>
    if 500 ≤ resp.statusCode ∧ resp.statusCode ≤ 599 then
      .retryable ("attestation bundle with URL " ++ url ++ " returned status code "
        ++ toString resp.statusCode)
    else
      match deps.snappyDecode resp.body with
      | .error e => .permanent ("failed to decompress with snappy: " ++ e)
      | .ok dec =>
        match deps.protojsonUnmarshal dec with
        | .error e => .permanent ("failed to unmarshal to bundle: " ++ e)
        | .ok pb =>
          match deps.newBundle pb with
          | .error e => .permanent ("failed to create new bundle: " ++ e)
          | .ok b => .ok b

/-- `getBundle` from `client.go`: the attempt above through `backoff.Retry` with
the constant backoff and `WithMaxRetries(bo, 3)`.  The second component counts
the invocations of the closure, i.e. the number of GETs performed. -/
def getBundle (deps : BundleDeps π β) (url : String) : Except String β × Nat :=
  backoffRetry defaultRetryPolicy (getBundleAttempt deps url)

/-! ## Bundle resolver fan-out (`fetchBundleFromAttestations`) -/

/-- The body of one fan-out task of `fetchBundleFromAttestations`, for the record
`a`: no inline bundle and no bundle URL fails; an empty bundle URL falls back to
a copy holding only the inline bundle (no network call); otherwise the bundle is
fetched via `getBundle` and the result holds only the fetched bundle.  The second
component is the number of GETs the task performed. -/
def resolveAttestation (deps : BundleDeps π β) (a : Attestation β) :
    Except String (Attestation β) × Nat :=
  if a.bundle.isNone && (a.bundleURL == "") then
    (.error "attestation has no bundle or bundle URL", 0)
  else if a.bundleURL == "" then
    (.ok { bundle := a.bundle, bundleURL := "" }, 0)
  else
    match getBundle deps a.bundleURL with
    | (.error e, n) => (.error ("failed to fetch bundle with URL: " ++ e), n)
    | (.ok b, n) => (.ok { bundle := some b, bundleURL := "" }, n)

/-- The per-task results of the fan-out, in input order (task `i` works on input
record `i` and owns output slot `i`). -/
def resolveResults (deps : BundleDeps π β) (atts : List (Attestation β)) :
    List (Except String (Attestation β) × Nat) :=
  atts.map (resolveAttestation deps)

/-- The error `errgroup.Group.Wait` reports: the first error in task completion
order, where `order` lists the task indices in the order they complete. -/
def firstErrIn (results : List (Except String (Attestation β) × Nat))
    (order : List Nat) : Option String :=
  order.findSome? fun i =>
    match results.get? i with
    | some (.error e, _) => some e
    | _ => none

/-- `fetchBundleFromAttestations` from `client.go`: run one task per record (all
tasks run to completion; `order` is their completion order), each writing into
its own slot of the pre-sized `fetched` array (a slot of a failed task stays
`none`, like the `nil` pointer it is in Go); `g.Wait()` returns the first error
in completion order, in which case the whole call returns that error and no
list.  The second component is the total number of GETs performed. -/
def fetchBundleFromAttestations (deps : BundleDeps π β)
    (atts : List (Attestation β)) (order : List Nat) :
    Except String (List (Option (Attestation β))) × Nat :=
  let results := resolveResults deps atts
  let gets := (results.map (fun r => r.2)).sum
  match firstErrIn results order with
  | some e => (.error e, gets)
  | none => (.ok (results.map (fun r => r.1.toOption)), gets)

/-! ## The client (`LiveClient`, `NewLiveClient`, exported methods) -/

/-- `strings.TrimSuffix(s, suf)`: remove `suf` from the end of `s` if present
(modelled on the character lists underlying the strings). -/
def trimSuffix (s suf : String) : String :=
  if suf.data <:+ s.data then ⟨s.data.take (s.data.length - suf.data.length)⟩
  else s

/-- The `LiveClient` state the claims depend on: the stored host. -/
structure LiveClient where
  host : String
deriving DecidableEq, Repr

/-- `NewLiveClient` from `client.go`: the host is stored with
`strings.TrimSuffix(host, "/")` applied. -/
def NewLiveClient (host : String) : LiveClient :=
  { host := trimSuffix host "/" }

/-- `GetAttestationByRepoAndSubjectDigestPath` (`"repos/%s/attestations/%s"`)
applied to its arguments. -/
def GetAttestationByRepoAndSubjectDigestPath (repo digest : String) : String :=
  "repos/" ++ repo ++ "/attestations/" ++ digest

/-- `GetAttestationByOwnerAndSubjectDigestPath` (`"orgs/%s/attestations/%s"`)
applied to its arguments. -/
def GetAttestationByOwnerAndSubjectDigestPath (owner digest : String) : String :=
  "orgs/" ++ owner ++ "/attestations/" ++ digest

/-- `getByURL` from `client.go`: fetch the attestation records, then resolve all
bundles; a bundle-resolution error is wrapped as
`fmt.Errorf("failed to fetch bundle with URL: %w", err)`.  Returns the result,
the recorded REST invocations and the number of GETs. -/
def getByURL (c : LiveClient) (pages : List (PageBehavior β))
    (deps : BundleDeps π β) (order : List Nat) (url : String) (limit : Int) :
    Except ApiError (List (Option (Attestation β))) × List RestCall × Nat :=
  match getAttestations c.host pages url limit with
  | (.error e, calls) => (.error e, calls, 0)
  | (.ok atts, calls) =>
    match fetchBundleFromAttestations deps atts order with
    | (.error e, gets) =>
      (.error (.errorf ("failed to fetch bundle with URL: " ++ e)), calls, gets)
    | (.ok fetched, gets) => (.ok fetched, calls, gets)

/-- `GetByRepoAndDigest` from `client.go`. -/
def GetByRepoAndDigest (c : LiveClient) (pages : List (PageBehavior β))
    (deps : BundleDeps π β) (order : List Nat) (repo digest : String) (limit : Int) :
    Except ApiError (List (Option (Attestation β))) × List RestCall × Nat :=
  getByURL c pages deps order (GetAttestationByRepoAndSubjectDigestPath repo digest) limit

/-- `GetByOwnerAndDigest` from `client.go`. -/
def GetByOwnerAndDigest (c : LiveClient) (pages : List (PageBehavior β))
    (deps : BundleDeps π β) (order : List Nat) (owner digest : String) (limit : Int) :
    Except ApiError (List (Option (Attestation β))) × List RestCall × Nat :=
  getByURL c pages deps order (GetAttestationByOwnerAndSubjectDigestPath owner digest) limit

/-! ## Trust domain resolver (`getTrustDomain`) -/

/-- Modelled from the spec: the nested response of the metadata endpoint, of
which only the trust-domain string is consumed
(`resp.Domains.ArtifactAttestations.TrustDomain`); the type declarations are
not under `src/`. -/
structure MetaResponse where
  trustDomain : String
deriving DecidableEq, Repr

/-- Modelled from the spec: `MetaPath`, the fixed metadata path; its declaration
is not under `src/` and no claim depends on its exact value. -/
def MetaPath : String := "meta"

/-- `getTrustDomain` from `client.go`: a single non-paginated fetch through the
same retrying executor with the same `shouldRetry` classification, returning the
trust-domain string of the response.  Also returns the recorded REST
invocations. -/
def getTrustDomain (c : LiveClient) (op : Nat → Except RestErr MetaResponse)
    (url : String) : Except RestErr String × List RestCall :=
  let r := backoffRetry defaultRetryPolicy (fun i => classify (op i))
  let calls := List.replicate r.2 (⟨c.host, url⟩ : RestCall)
  match r.1 with
  | .error e => (.error e, calls)
  | .ok resp => (.ok resp.trustDomain, calls)

/-- `GetTrustDomain` from `client.go`: `getTrustDomain` at `MetaPath`. -/
def GetTrustDomain (c : LiveClient) (op : Nat → Except RestErr MetaResponse) :
    Except RestErr String × List RestCall :=
  getTrustDomain c op MetaPath

/-! ## Helper lemmas: the retry executor -/

/-- A successful attempt ends the retry loop at once, with one invocation. -/
theorem retryFrom_ok (op : Nat → Attempt ε α) (s fuel : Nat) (a : α)
    (h : op s = .ok a) : retryFrom op s fuel = (.ok a, 1) := by
  cases fuel <;> simp [retryFrom, h]

/-- A `backoff.Permanent` error ends the retry loop at once, with one invocation. -/
theorem retryFrom_perm (op : Nat → Attempt ε α) (s fuel : Nat) (e : ε)
    (h : op s = .permanent e) : retryFrom op s fuel = (.error e, 1) := by
  cases fuel <;> simp [retryFrom, h]

/-- A retryable error with fuel remaining leads to one more attempt. -/
theorem retryFrom_step (op : Nat → Attempt ε α) (s fuel : Nat) (e : ε)
    (h : op s = .retryable e) :
    retryFrom op s (fuel + 1) =
      ((retryFrom op (s + 1) fuel).1, (retryFrom op (s + 1) fuel).2 + 1) := by
  simp [retryFrom, h]

/-- A retryable error with no fuel left is propagated, after its own invocation. -/
theorem retryFrom_last (op : Nat → Attempt ε α) (s : Nat) (e : ε)
    (h : op s = .retryable e) : retryFrom op s 0 = (.error e, 1) := by
  simp [retryFrom, h]

/-- The retry loop always invokes the operation at least once. -/
theorem retryFrom_snd_pos (op : Nat → Attempt ε α) (s fuel : Nat) :
    1 ≤ (retryFrom op s fuel).2 := by
  cases fuel <;> cases h : op s <;> simp [retryFrom, h]

/-- `shouldRetry` holds on an HTTP error with a 5xx status. -/
theorem shouldRetry_http (s : Int) (m : String) (h1 : 500 ≤ s) (h2 : s ≤ 599) :
    shouldRetry (.http s m) = true := by
  simp [shouldRetry]
  omega

/-- `shouldRetry` never holds on a non-HTTP error such as a connection failure:
`errors.As(err, &httpError)` fails and the `false` fallthrough is taken. -/
theorem shouldRetry_net (m : String) : shouldRetry (.net m) = false := rfl

/-- The closures of `getAttestations` and `getTrustDomain` return a retryable
error exactly when `shouldRetry` accepts the REST error. -/
theorem classify_retryable (e : RestErr) (h : shouldRetry e = true) :
    classify (Except.error e : Except RestErr α) = .retryable e := by
  simp [classify, h]

/-- The closures of `getAttestations` and `getTrustDomain` wrap the REST error
in `backoff.Permanent` when `shouldRetry` rejects it. -/
theorem classify_permanent (e : RestErr) (h : shouldRetry e = false) :
    classify (Except.error e : Except RestErr α) = .permanent e := by
  simp [classify, h]

/-! ## Helper lemmas: strings and constants -/

/-- A three-part concatenation with a non-empty middle part is non-empty. -/
theorem append3_ne_empty (a b c : String) (hb : 0 < b.length) : a ++ b ++ c ≠ "" := by
  intro h
  have h2 := congrArg String.length h
  rw [String.length_append, String.length_append] at h2
  have h0 : ("" : String).length = 0 := rfl
  omega

/-- The first request URL of `getAttestations` is never the empty string. -/
theorem firstRequestURL_ne_empty (url : String) (limit : Int) :
    firstRequestURL url limit ≠ "" := by
  unfold firstRequestURL
  exact append3_ne_empty _ _ _ (by decide)

theorem maxLimitForFlag_eq : maxLimitForFlag = 1000 := rfl

theorem maxLimitForFetch_eq : maxLimitForFetch = 100 := rfl

/-- The per-page cap of `getAttestations` computes `min limit 100`. -/
theorem perPage_eq_min (limit : Int) :
    (if maxLimitForFetch < limit then maxLimitForFetch else limit) =
      min limit maxLimitForFetch := by
  rw [min_def, maxLimitForFetch_eq]
  split_ifs <;> omega

/-! ## Helper lemmas: page fetches -/

/-- A page served identically on every attempt is fetched with a single
invocation of the collaborator. -/
theorem fetchPage_pure (r : PageResp β) :
    fetchPage (fun _ => .ok r) = (.ok r, 1) := by
  unfold fetchPage backoffRetry
  exact retryFrom_ok _ 0 defaultRetryPolicy.maxRetries r rfl

/-- A page fetch invokes the collaborator at least once. -/
theorem fetchPage_snd_pos (p : PageBehavior β) : 1 ≤ (fetchPage p).2 := by
  unfold fetchPage backoffRetry
  exact retryFrom_snd_pos _ 0 defaultRetryPolicy.maxRetries

/-! ## Helper lemmas: the pagination loop -/

/-- All attestations of a page sequence, in the order the pages return them. -/
def totalAtts (rs : List (PageResp β)) : List (Attestation β) :=
  (rs.map PageResp.attestations).flatten

theorem totalAtts_nil : totalAtts ([] : List (PageResp β)) = [] := rfl

theorem totalAtts_cons (r : PageResp β) (rs : List (PageResp β)) :
    totalAtts (r :: rs) = r.attestations ++ totalAtts rs := by
  simp [totalAtts]

/-- The accumulator produced by the pagination loop when every page fetch
succeeds: keep appending pages while the accumulator is shorter than `limit`. -/
def loopSpec (limit : Nat) : List (PageResp β) → List (Attestation β) → List (Attestation β)
  | [], acc => acc
  | r :: rs, acc => if limit ≤ acc.length then acc else loopSpec limit rs (acc ++ r.attestations)

/-- Up to `limit`, the loop accumulator agrees with the concatenation of all
pages: pages are only skipped once the accumulator already holds `limit` items. -/
theorem loopSpec_take (limit : Nat) (rs : List (PageResp β)) :
    ∀ acc, (loopSpec limit rs acc).take limit = (acc ++ totalAtts rs).take limit := by
  induction rs with
  | nil => intro acc; simp [loopSpec, totalAtts]
  | cons r rs ih =>
    intro acc
    by_cases h : limit ≤ acc.length
    · simp only [loopSpec, if_pos h, totalAtts_cons]
      rw [List.take_append_eq_append_take, Nat.sub_eq_zero_of_le h]
      simp
    · simp only [loopSpec, if_neg h, totalAtts_cons]
      rw [ih]
      simp [List.append_assoc]

/-- A well-formed response sequence of the paged collaborator: every page but
the last carries a non-empty continuation URL, the last page an empty one.
The collaborator always answers at least one request, so the sequence is
non-empty. -/
inductive Chain : List (PageResp β) → Prop
  | single : ∀ r : PageResp β, r.next = "" → Chain [r]
  | cons : ∀ (r : PageResp β) (rs : List (PageResp β)),
      r.next ≠ "" → Chain rs → Chain (r :: rs)

/-- On a well-formed page sequence with all fetches succeeding, the pagination
loop returns exactly the `loopSpec` accumulator. -/
theorem getAttsLoop_pure_fst (host : String) (limit : Nat) (rs : List (PageResp β))
    (hc : Chain rs) :
    ∀ url acc, url ≠ "" →
      (getAttsLoop host limit (pureBehaviors rs) url acc).1 = .ok (loopSpec limit rs acc) := by
  induction hc with
  | single r hr =>
    intro url acc hurl
    by_cases h : limit ≤ acc.length
    · simp [getAttsLoop, pureBehaviors, hurl, h, loopSpec]
    · simp [getAttsLoop, pureBehaviors, hurl, h, loopSpec, fetchPage_pure, hr]
  | cons r rs hr _ ih =>
    intro url acc hurl
    by_cases h : limit ≤ acc.length
    · simp [getAttsLoop, pureBehaviors, hurl, h, loopSpec]
    · simp only [pureBehaviors, List.map, getAttsLoop, h, hurl, or_self, if_false,
        fetchPage_pure, loopSpec, if_neg h]
      have := ih r.next (acc ++ r.attestations) hr
      simp only [pureBehaviors] at this
      simpa using this

/-! ## Helper lemmas: `getAttestations` -/

/-- For a valid limit, `getAttestations` is the pagination loop at the
`per_page`-decorated URL followed by the post-loop processing. -/
theorem getAttestations_valid (host : String) (pages : List (PageBehavior β))
    (url : String) (limit : Int) (h1 : 0 < limit) (h2 : limit ≤ maxLimitForFlag) :
    getAttestations host pages url limit =
      match getAttsLoop host limit.toNat pages (firstRequestURL url limit) [] with
      | (.error e, calls) => (.error (.rest e), calls)
      | (.ok acc, calls) => (finishAtts acc limit, calls) := by
  have hneg : ¬ (limit ≤ 0 ∨ maxLimitForFlag < limit) := by
    rw [maxLimitForFlag_eq] at h2 ⊢
    omega
  unfold getAttestations
  rw [if_neg hneg]

/-- On a well-formed, all-successful page sequence with at least one attestation
in total, `getAttestations` returns the first `limit` attestations in page
order. -/
theorem getAtts_pure_ok (host url : String) (limit : Int) (rs : List (PageResp β))
    (h1 : 0 < limit) (h2 : limit ≤ maxLimitForFlag) (hc : Chain rs)
    (hne : totalAtts rs ≠ []) :
    (getAttestations host (pureBehaviors rs) url limit).1 =
      .ok ((totalAtts rs).take limit.toNat) := by
  rw [getAttestations_valid host _ url limit h1 h2]
  rcases hL : getAttsLoop host limit.toNat (pureBehaviors rs) (firstRequestURL url limit) []
    with ⟨r1, r2⟩
  have hfst := getAttsLoop_pure_fst host limit.toNat rs hc (firstRequestURL url limit) []
    (firstRequestURL_ne_empty url limit)
  rw [hL] at hfst
  simp only at hfst
  subst hfst
  simp only
  have htake : (loopSpec limit.toNat rs []).take limit.toNat =
      (totalAtts rs).take limit.toNat := by
    have := loopSpec_take limit.toNat rs []
    simpa using this
  have hlim : 0 < limit.toNat := by omega
  have hA : ¬ ((loopSpec limit.toNat rs []).length = 0) := by
    intro h0
    rw [List.length_eq_zero.mp h0] at htake
    simp only [List.take_nil] at htake
    rcases List.take_eq_nil_iff.mp htake.symm with h | h
    · omega
    · exact hne h
  unfold finishAtts
  rw [if_neg hA]
  by_cases hover : limit.toNat < (loopSpec limit.toNat rs []).length
  · rw [if_pos hover, htake]
  · rw [if_neg hover]
    have hle : (loopSpec limit.toNat rs []).length ≤ limit.toNat := by omega
    rw [← List.take_of_length_le hle, htake]

/-- Every collaborator invocation recorded by the pagination loop carries the
host the loop was given. -/
theorem getAttsLoop_calls_host (host : String) (limit : Nat)
    (pages : List (PageBehavior β)) :
    ∀ url acc, ∀ call ∈ (getAttsLoop host limit pages url acc).2, call.host = host := by
  induction pages with
  | nil => intro url acc call hcall; simp [getAttsLoop] at hcall
  | cons p ps ih =>
    intro url acc call hcall
    by_cases hg : url = "" ∨ limit ≤ acc.length
    · simp [getAttsLoop, hg] at hcall
    · rcases hfp : fetchPage p with ⟨fr, n⟩
      cases fr with
      | error e =>
        simp [getAttsLoop, hg, hfp] at hcall
        rw [hcall.2]
      | ok resp =>
        simp [getAttsLoop, hg, hfp] at hcall
        rcases hcall with h | h
        · rw [h.2]
        · exact ih resp.next (acc ++ resp.attestations) call h

/-- The first collaborator invocation of the pagination loop is a GET of the
URL the loop starts from. -/
theorem getAttsLoop_calls_head (host : String) (limit : Nat) (p : PageBehavior β)
    (ps : List (PageBehavior β)) (url : String) (acc : List (Attestation β))
    (hurl : url ≠ "") (hlen : acc.length < limit) :
    (getAttsLoop host limit (p :: ps) url acc).2.head? = some ⟨host, url⟩ := by
  have hg : ¬ (url = "" ∨ limit ≤ acc.length) := by
    push_neg
    exact ⟨hurl, by omega⟩
  rcases hfp : fetchPage p with ⟨fr, n⟩
  have hn : 1 ≤ n := by
    have := fetchPage_snd_pos p
    rw [hfp] at this
    simpa using this
  obtain ⟨m, rfl⟩ : ∃ m, n = m + 1 := ⟨n - 1, by omega⟩
  cases fr <;> simp [getAttsLoop, hg, hfp, List.replicate_succ]

/-- Every collaborator invocation recorded by `getAttestations` carries the
given host. -/
theorem getAttestations_calls_host (host : String) (pages : List (PageBehavior β))
    (url : String) (limit : Int) :
    ∀ call ∈ (getAttestations host pages url limit).2, call.host = host := by
  intro call hcall
  unfold getAttestations at hcall
  by_cases hv : limit ≤ 0 ∨ maxLimitForFlag < limit
  · rw [if_pos hv] at hcall
    simp at hcall
  · rw [if_neg hv] at hcall
    rcases hL : getAttsLoop host limit.toNat pages (firstRequestURL url limit) []
      with ⟨r1, r2⟩
    rw [hL] at hcall
    have h2 : call ∈ r2 := by cases r1 <;> simpa using hcall
    have h3 := getAttsLoop_calls_host host limit.toNat pages (firstRequestURL url limit) [] call
    rw [hL] at h3
    exact h3 h2

/-- If the loop reaches a page whose fetch exhausts its retries, the loop
returns that error (and hence no accumulated attestations). -/
theorem getAttsLoop_bad_page (host : String) (limit : Nat) (bad : PageBehavior β)
    (rest : List (PageBehavior β)) (e : RestErr) (n : Nat)
    (hbad : fetchPage bad = (.error e, n)) :
    ∀ (rs : List (PageResp β)) url acc, url ≠ "" → (∀ r ∈ rs, r.next ≠ "") →
      (acc ++ totalAtts rs).length < limit →
      (getAttsLoop host limit (pureBehaviors rs ++ bad :: rest) url acc).1 = .error e := by
  intro rs
  induction rs with
  | nil =>
    intro url acc hurl _ hlen
    have hg : ¬ (url = "" ∨ limit ≤ acc.length) := by
      push_neg
      refine ⟨hurl, ?_⟩
      simp [totalAtts] at hlen
      omega
    simp [pureBehaviors, getAttsLoop, hg, hbad]
  | cons r rs ih =>
    intro url acc hurl hnexts hlen
    have hr : r.next ≠ "" := hnexts r (by simp)
    have hacc : acc.length < limit := by
      rw [totalAtts_cons] at hlen
      simp [List.length_append] at hlen
      omega
    have hlen' : ((acc ++ r.attestations) ++ totalAtts rs).length < limit := by
      rw [totalAtts_cons] at hlen
      simp [List.length_append] at hlen ⊢
      omega
    have hg : ¬ (url = "" ∨ limit ≤ acc.length) := by
      push_neg
      exact ⟨hurl, by omega⟩
    simp only [pureBehaviors, List.map, List.cons_append, getAttsLoop, if_neg hg,
      fetchPage_pure]
    have h2 := ih r.next (acc ++ r.attestations) hr
      (fun x hx => hnexts x (by simp [hx])) hlen'
    simpa [pureBehaviors] using h2

/-! ## Helper lemmas: the bundle fan-out -/

/-- Task `i` of the fan-out works on input record `i`. -/
theorem resolveResults_get? (deps : BundleDeps π β) (atts : List (Attestation β))
    (i : Nat) (h : i < atts.length) :
    (resolveResults deps atts).get? i = some (resolveAttestation deps (atts.get ⟨i, h⟩)) := by
  unfold resolveResults
  rw [List.get?_map, List.get?_eq_get h]
  rfl

/-- Decomposition of a successful fan-out: no task in the completion order
failed, the output is the slot array and the GET count is the total over all
tasks. -/
theorem fetchBundle_ok_elim (deps : BundleDeps π β) (atts : List (Attestation β))
    (order : List Nat) (fetched : List (Option (Attestation β))) (gets : Nat)
    (h : fetchBundleFromAttestations deps atts order = (.ok fetched, gets)) :
    firstErrIn (resolveResults deps atts) order = none ∧
      fetched = (resolveResults deps atts).map (fun r => r.1.toOption) ∧
      gets = ((resolveResults deps atts).map (fun r => r.2)).sum := by
  rcases hE : firstErrIn (resolveResults deps atts) order with _ | e
  · simp only [fetchBundleFromAttestations, hE] at h
    obtain ⟨h1, h2⟩ := Prod.mk.injEq .. ▸ h
    exact ⟨rfl, (Except.ok.injEq .. ▸ h1).symm, h2.symm⟩
  · simp [fetchBundleFromAttestations, hE] at h

/-- A fan-out with no failing task in the completion order succeeds with the
slot array. -/
theorem fetchBundle_ok_intro (deps : BundleDeps π β) (atts : List (Attestation β))
    (order : List Nat) (hE : firstErrIn (resolveResults deps atts) order = none) :
    fetchBundleFromAttestations deps atts order =
      (.ok ((resolveResults deps atts).map (fun r => r.1.toOption)),
        ((resolveResults deps atts).map (fun r => r.2)).sum) := by
  simp [fetchBundleFromAttestations, hE]

/-- If no task in the completion order failed, a task listed there succeeded. -/
theorem task_ok_of_firstErrIn_none (results : List (Except String (Attestation β) × Nat))
    (order : List Nat) (i : Nat) (res : Except String (Attestation β)) (n : Nat)
    (hE : firstErrIn results order = none) (hi : i ∈ order)
    (hr : results.get? i = some (res, n)) : ∃ a, res = .ok a := by
  have h2 := (List.findSome?_eq_none_iff.mp hE) i hi
  rw [hr] at h2
  cases res with
  | error e => simp at h2
  | ok a => exact ⟨a, rfl⟩

/-- A failing task listed in the completion order makes `g.Wait()` report an
error. -/
theorem firstErrIn_ne_none (results : List (Except String (Attestation β) × Nat))
    (order : List Nat) (i : Nat) (e : String) (n : Nat)
    (hi : i ∈ order) (hr : results.get? i = some (.error e, n)) :
    firstErrIn results order ≠ none := by
  intro hE
  have h2 := (List.findSome?_eq_none_iff.mp hE) i hi
  rw [hr] at h2
  simp at h2

/-- The absence of failures does not depend on the completion order, as long as
two orders cover the same tasks. -/
theorem firstErrIn_none_of_mem_iff (results : List (Except String (Attestation β) × Nat))
    (o₁ o₂ : List Nat) (hp : ∀ x, x ∈ o₁ ↔ x ∈ o₂)
    (hE : firstErrIn results o₁ = none) : firstErrIn results o₂ = none :=
  List.findSome?_eq_none_iff.mpr
    (fun i hi => List.findSome?_eq_none_iff.mp hE i ((hp i).mpr hi))

/-! ## Helper lemmas: client-level plumbing -/

/-- An out-of-bounds limit fails `getAttestations` immediately: the
input-validation error, no collaborator invocation. -/
theorem getAttestations_invalid (host : String) (pages : List (PageBehavior β))
    (url : String) (limit : Int) (h : limit ≤ 0 ∨ maxLimitForFlag < limit) :
    getAttestations host pages url limit = (.error (.errorf invalidLimitMsg), []) := by
  unfold getAttestations
  rw [if_pos h]

/-- `getByURL` records exactly the collaborator invocations of
`getAttestations`. -/
theorem getByURL_calls (c : LiveClient) (pages : List (PageBehavior β))
    (deps : BundleDeps π β) (order : List Nat) (url : String) (limit : Int) :
    (getByURL c pages deps order url limit).2.1 =
      (getAttestations c.host pages url limit).2 := by
  unfold getByURL
  rcases hA : getAttestations c.host pages url limit with ⟨ra, calls⟩
  cases ra with
  | error e => simp
  | ok atts =>
    rcases hB : fetchBundleFromAttestations deps atts order with ⟨rb, gets⟩
    cases rb <;> simp [hB]

/-! ## Claims -/

/-- Claim C2: for a single page fetch through the retrying executor with the
default retry policy (constant 200 ms interval, 4 total attempts = 1 initial +
3 retries): if the operation fails twice with a 5xx error and then succeeds,
the fetch succeeds and the operation is invoked exactly 3 times; if the
operation fails with 5xx on 4 consecutive attempts, the fetch fails after
exactly 4 invocations and the last error is propagated to the caller. -/
theorem claimC2_page_fetch_retry_counts :
    (∀ (β : Type) (p : PageBehavior β) (s0 s1 : Int) (m0 m1 : String) (r : PageResp β),
        500 ≤ s0 → s0 ≤ 599 → 500 ≤ s1 → s1 ≤ 599 →
        p 0 = .error (.http s0 m0) → p 1 = .error (.http s1 m1) → p 2 = .ok r →
        fetchPage p = (.ok r, 3)) ∧
    (∀ (β : Type) (p : PageBehavior β) (s : Nat → Int) (m : Nat → String),
        (∀ i, 500 ≤ s i ∧ s i ≤ 599) →
        (∀ i, p i = .error (.http (s i) (m i))) →
        fetchPage p = (.error (.http (s 3) (m 3)), 4)) ∧
    defaultRetryPolicy.intervalMillis = 200 ∧ defaultRetryPolicy.maxRetries + 1 = 4 := by
  refine ⟨?_, ?_, rfl, rfl⟩
  · intro β p s0 s1 m0 m1 r h500 h599 h500' h599' hp0 hp1 hp2
    have h0 : classify (p 0) = Attempt.retryable (RestErr.http s0 m0) := by
      rw [hp0, classify_retryable _ (shouldRetry_http s0 m0 h500 h599)]
    have h1 : classify (p 1) = Attempt.retryable (RestErr.http s1 m1) := by
      rw [hp1, classify_retryable _ (shouldRetry_http s1 m1 h500' h599')]
    have h2 : classify (p 2) = Attempt.ok r := by rw [hp2]; rfl
    show retryFrom (fun i => classify (p i)) 0 3 = (Except.ok r, 3)
    rw [retryFrom_step (fun i => classify (p i)) 0 2 _ h0,
      retryFrom_step (fun i => classify (p i)) 1 1 _ h1,
      retryFrom_ok (fun i => classify (p i)) 2 1 _ h2]
  · intro β p s m hs hp
    have h : ∀ i, classify (p i) = Attempt.retryable (RestErr.http (s i) (m i)) := by
      intro i
      rw [hp i, classify_retryable _ (shouldRetry_http (s i) (m i) (hs i).1 (hs i).2)]
    show retryFrom (fun i => classify (p i)) 0 3 = (Except.error (RestErr.http (s 3) (m 3)), 4)
    rw [retryFrom_step (fun i => classify (p i)) 0 2 _ (h 0),
      retryFrom_step (fun i => classify (p i)) 1 1 _ (h 1),
      retryFrom_step (fun i => classify (p i)) 2 0 _ (h 2),
      retryFrom_last (fun i => classify (p i)) 3 _ (h 3)]

/-- Witness for C2: a page behaviour failing with 503 and 502 and then
succeeding is fetched in exactly 3 invocations; a page behaviour failing with
500 on every attempt fails after exactly 4 invocations with the last error. -/
theorem claimC2_witness :
    fetchPage (fun i =>
        if i = 0 then (.error (.http 503 "first") : Except RestErr (PageResp Unit))
        else if i = 1 then .error (.http 502 "second")
        else .ok ⟨[], ""⟩) = (.ok ⟨[], ""⟩, 3) ∧
    fetchPage (fun _ => (.error (.http 500 "always") : Except RestErr (PageResp Unit))) =
      (.error (.http 500 "always"), 4) :=
  ⟨claimC2_page_fetch_retry_counts.1 Unit _ 503 502 "first" "second" ⟨[], ""⟩
      (by decide) (by decide) (by decide) (by decide) rfl rfl rfl,
    claimC2_page_fetch_retry_counts.2.1 Unit _ (fun _ => 500) (fun _ => "always")
      (fun _ => ⟨(by decide : (500 : Int) ≤ 500), (by decide : (500 : Int) ≤ 599)⟩)
      (fun _ => rfl)⟩

/-- Counterexample to Claim C1 as stated: for `limit = 30` (which satisfies
`0 < limit ≤ 1000`) and the page sequence consisting of one page with zero
attestations (so `totalAvailable = 0`), `getAttestations` does not return a
list of length `min(30, 0) = 0`: it fails with `ErrNoAttestationsFound`. -/
theorem claimC1_counterexample :
    getAttestations "api.github.com" (pureBehaviors [(⟨[], ""⟩ : PageResp Unit)])
        "repos/cli/attestations/sha" 30 =
      (.error ErrNoAttestationsFound,
        [⟨"api.github.com", "repos/cli/attestations/sha?per_page=30"⟩]) := rfl

/-- Claim C1 (amended): for every limit with `0 < limit ≤ 1000` and every page
sequence returned by the paged-REST collaborator holding at least one
attestation in total, `getAttestations` returns the first `limit` attestations
in the order the pages returned them (truncating an overshooting last page), so
the result length is `min(limit, totalAvailable)`; and since a successful
bundle fan-out preserves the list length, `getByURL` (hence `GetByRepoAndDigest`
and `GetByOwnerAndDigest`) returns a list of that same length. -/
theorem claimC1_amended (β : Type) (host url : String) (limit : Int)
    (rs : List (PageResp β)) (h1 : 0 < limit) (h2 : limit ≤ maxLimitForFlag)
    (hc : Chain rs) (hne : totalAtts rs ≠ []) :
    (getAttestations host (pureBehaviors rs) url limit).1 =
      .ok ((totalAtts rs).take limit.toNat) ∧
    ((totalAtts rs).take limit.toNat).length = min limit.toNat (totalAtts rs).length ∧
    (∀ (π : Type) (deps : BundleDeps π β) (order : List Nat) (u : String)
        (c : LiveClient) (fetched : List (Option (Attestation β)))
        (calls : List RestCall) (gets : Nat),
        getByURL c (pureBehaviors rs) deps order u limit = (.ok fetched, calls, gets) →
        fetched.length = min limit.toNat (totalAtts rs).length) := by
  refine ⟨getAtts_pure_ok host url limit rs h1 h2 hc hne, List.length_take .., ?_⟩
  intro π deps order u c fetched calls gets h
  unfold getByURL at h
  rcases hA : getAttestations c.host (pureBehaviors rs) u limit with ⟨ra, calls'⟩
  have hfst : ra = .ok ((totalAtts rs).take limit.toNat) := by
    have h3 := getAtts_pure_ok c.host u limit rs h1 h2 hc hne
    rw [hA] at h3
    simpa using h3
  subst hfst
  simp only [hA] at h
  rcases hB : fetchBundleFromAttestations deps ((totalAtts rs).take limit.toNat) order
    with ⟨rb, gets'⟩
  simp only [hB] at h
  cases rb with
  | error e => simp at h
  | ok fetched' =>
    simp only [Prod.mk.injEq, Except.ok.injEq] at h
    obtain ⟨rfl, -, -⟩ := h
    obtain ⟨-, hshape, -⟩ := fetchBundle_ok_elim deps _ order fetched' gets' hB
    rw [hshape]
    simp [resolveResults, List.length_take]

/-- Witness for the amended C1: two pages of sizes 2 and 1 with `limit = 2`;
the call returns exactly the first 2 attestations in page order. -/
theorem claimC1_witness :
    (getAttestations "h"
        (pureBehaviors [(⟨[⟨some 0, ""⟩, ⟨some 1, ""⟩], "page2"⟩ : PageResp Nat),
          ⟨[⟨some 2, ""⟩], ""⟩]) "u" 2).1 =
      .ok ((totalAtts [(⟨[⟨some 0, ""⟩, ⟨some 1, ""⟩], "page2"⟩ : PageResp Nat),
          ⟨[⟨some 2, ""⟩], ""⟩]).take (2 : Int).toNat) :=
  (claimC1_amended Nat "h" "u" 2
      [⟨[⟨some 0, ""⟩, ⟨some 1, ""⟩], "page2"⟩, ⟨[⟨some 2, ""⟩], ""⟩]
      (by decide) (by decide)
      (Chain.cons _ _ (by decide) (Chain.single _ rfl)) (by decide)).1

/-- Claim C3: `fetchBundleFromAttestations` resolves each record by case
analysis — no inline bundle and no bundle URL fails with the error
"attestation has no bundle or bundle URL"; an empty bundle URL with a present
inline bundle resolves to a copy holding only the inline bundle with no
network call; a record with a bundle URL is fetched and decoded via the URL.
On success, output slot `i` holds the resolution of input record `i`, and the
successful result does not depend on the completion order. -/
theorem claimC3_resolution_cases (β π : Type) (deps : BundleDeps π β) :
    (∀ a : Attestation β, a.bundle = none → a.bundleURL = "" →
        resolveAttestation deps a = (.error "attestation has no bundle or bundle URL", 0)) ∧
    (∀ (a : Attestation β) (b : β), a.bundle = some b → a.bundleURL = "" →
        resolveAttestation deps a = (.ok ⟨some b, ""⟩, 0)) ∧
    (∀ (a : Attestation β) (b : β) (n : Nat), a.bundleURL ≠ "" →
        getBundle deps a.bundleURL = (.ok b, n) →
        resolveAttestation deps a = (.ok ⟨some b, ""⟩, n)) ∧
    (∀ (a : Attestation β) (e : String) (n : Nat), a.bundleURL ≠ "" →
        getBundle deps a.bundleURL = (.error e, n) →
        resolveAttestation deps a = (.error ("failed to fetch bundle with URL: " ++ e), n)) ∧
    (∀ (atts : List (Attestation β)) (order : List Nat)
        (fetched : List (Option (Attestation β))) (gets : Nat),
        order.Perm (List.range atts.length) →
        fetchBundleFromAttestations deps atts order = (.ok fetched, gets) →
        fetched.length = atts.length ∧
        ∀ i (h : i < atts.length), ∃ a2,
          (resolveAttestation deps (atts.get ⟨i, h⟩)).1 = .ok a2 ∧
          fetched.get? i = some (some a2)) ∧
    (∀ (atts : List (Attestation β)) (o₁ o₂ : List Nat),
        o₁.Perm (List.range atts.length) → o₂.Perm (List.range atts.length) →
        ∀ fetched gets, fetchBundleFromAttestations deps atts o₁ = (.ok fetched, gets) →
          fetchBundleFromAttestations deps atts o₂ = (.ok fetched, gets)) := by
  refine ⟨?_, ?_, ?_, ?_, ?_, ?_⟩
  · intro a h1 h2
    simp [resolveAttestation, h1, h2]
  · intro a b h1 h2
    simp [resolveAttestation, h1, h2]
  · intro a b n h hgb
    have hb : (a.bundleURL == "") = false := by simp [h]
    simp [resolveAttestation, hb, hgb]
  · intro a e n h hgb
    have hb : (a.bundleURL == "") = false := by simp [h]
    simp [resolveAttestation, hb, hgb]
  · intro atts order fetched gets hperm hok
    obtain ⟨hE, hshape, -⟩ := fetchBundle_ok_elim deps atts order fetched gets hok
    constructor
    · rw [hshape]
      simp [resolveResults]
    · intro i h
      have hi : i ∈ order := hperm.mem_iff.mpr (List.mem_range.mpr h)
      have hr := resolveResults_get? deps atts i h
      rcases hres : resolveAttestation deps (atts.get ⟨i, h⟩) with ⟨res, n⟩
      rw [hres] at hr
      obtain ⟨a2, rfl⟩ := task_ok_of_firstErrIn_none _ order i res n hE hi hr
      refine ⟨a2, by simp [hres], ?_⟩
      rw [hshape, List.get?_map, hr]
      rfl
  · intro atts o₁ o₂ h1 h2 fetched gets hok
    obtain ⟨hE, hshape, hgets⟩ := fetchBundle_ok_elim deps atts o₁ fetched gets hok
    have hE2 : firstErrIn (resolveResults deps atts) o₂ = none :=
      firstErrIn_none_of_mem_iff _ o₁ o₂ (fun x => by rw [h1.mem_iff, h2.mem_iff]) hE
    rw [fetchBundle_ok_intro deps atts o₂ hE2, hshape, hgets]

/-- Test collaborators for the fan-out witnesses: every GET yields status 200
with body `[7]`, decompression is the identity, parsing returns the byte-list
length and bundle construction is the identity. -/
def mockDeps : BundleDeps Nat Nat :=
  { get := fun _ _ => .ok ⟨200, [7]⟩
    snappyDecode := fun b => .ok b
    protojsonUnmarshal := fun b => .ok b.length
    newBundle := fun p => .ok p }

/-- Witness for C3: the three resolution cases at concrete records, and a
concrete one-record fan-out whose successful result is reproduced for the
(identical) completion order. -/
theorem claimC3_witness :
    resolveAttestation mockDeps ⟨none, ""⟩ =
      (.error "attestation has no bundle or bundle URL", 0) ∧
    resolveAttestation mockDeps ⟨some 5, ""⟩ = (.ok ⟨some 5, ""⟩, 0) ∧
    resolveAttestation mockDeps ⟨none, "u"⟩ = (.ok ⟨some 1, ""⟩, 1) ∧
    fetchBundleFromAttestations mockDeps [⟨some 5, ""⟩] [0] =
      (.ok [some ⟨some 5, ""⟩], 0) :=
  ⟨(claimC3_resolution_cases Nat Nat mockDeps).1 ⟨none, ""⟩ rfl rfl,
    (claimC3_resolution_cases Nat Nat mockDeps).2.1 ⟨some 5, ""⟩ 5 rfl rfl,
    (claimC3_resolution_cases Nat Nat mockDeps).2.2.1 ⟨none, "u"⟩ 1 1 (by decide) rfl,
    (claimC3_resolution_cases Nat Nat mockDeps).2.2.2.2.2 [⟨some 5, ""⟩] [0] [0]
      (by simp [List.range_succ]) (by simp [List.range_succ]) [some ⟨some 5, ""⟩] 0 rfl⟩

/-- Claim C4: no partial success — a page fetch that exhausts its retries makes
`getAttestations` return that error, discarding all attestations accumulated
from earlier pages; and a failing fan-out task makes
`fetchBundleFromAttestations` return an error, never a partial list. -/
theorem claimC4_no_partial_success (β π : Type) :
    (∀ (host url : String) (limit : Int) (rs : List (PageResp β))
        (bad : PageBehavior β) (rest : List (PageBehavior β)) (e : RestErr) (n : Nat),
        0 < limit → limit ≤ maxLimitForFlag → url ≠ "" →
        (∀ r ∈ rs, r.next ≠ "") → (totalAtts rs).length < limit.toNat →
        fetchPage bad = (.error e, n) →
        (getAttestations host (pureBehaviors rs ++ bad :: rest) url limit).1 =
          .error (.rest e)) ∧
    (∀ (deps : BundleDeps π β) (atts : List (Attestation β)) (order : List Nat),
        order.Perm (List.range atts.length) →
        (∃ i, ∃ h : i < atts.length, ∃ e2,
            (resolveAttestation deps (atts.get ⟨i, h⟩)).1 = .error e2) →
        ∃ e3, (fetchBundleFromAttestations deps atts order).1 = .error e3) := by
  constructor
  · intro host url limit rs bad rest e n h1 h2 hurl hnexts hlen hbad
    rw [getAttestations_valid host _ url limit h1 h2]
    rcases hL : getAttsLoop host limit.toNat (pureBehaviors rs ++ bad :: rest)
      (firstRequestURL url limit) [] with ⟨r1, r2⟩
    have hfst := getAttsLoop_bad_page host limit.toNat bad rest e n hbad rs
      (firstRequestURL url limit) [] (firstRequestURL_ne_empty url limit) hnexts
      (by simpa using hlen)
    rw [hL] at hfst
    simp only at hfst
    subst hfst
    simp only
  · intro deps atts order hperm hex
    obtain ⟨i, h, e2, herr⟩ := hex
    rcases hres : resolveAttestation deps (atts.get ⟨i, h⟩) with ⟨res, n⟩
    rw [hres] at herr
    simp only at herr
    subst herr
    have hr := resolveResults_get? deps atts i h
    rw [hres] at hr
    have hi : i ∈ order := hperm.mem_iff.mpr (List.mem_range.mpr h)
    have hNone := firstErrIn_ne_none (resolveResults deps atts) order i e2 n hi hr
    rcases hE : firstErrIn (resolveResults deps atts) order with _ | e3
    · exact absurd hE hNone
    · exact ⟨e3, by simp [fetchBundleFromAttestations, hE]⟩

/-- Witness for C4: a first-page fetch failing with 500 on every attempt makes
the whole `getAttestations` call fail; a fan-out over one URL-less, bundle-less
record fails as a whole. -/
theorem claimC4_witness :
    (getAttestations "h"
        (pureBehaviors ([] : List (PageResp Unit)) ++
          (fun _ => .error (.http 500 "boom")) :: []) "u" 1).1 =
      .error (.rest (.http 500 "boom")) ∧
    ∃ e3, (fetchBundleFromAttestations mockDeps [⟨none, ""⟩] [0]).1 = .error e3 :=
  ⟨(claimC4_no_partial_success Unit Unit).1 "h" "u" 1 [] _ [] (.http 500 "boom") 4
      (by decide) (by decide) (by decide) (by simp) (by decide) rfl,
    (claimC4_no_partial_success Nat Nat).2 mockDeps [⟨none, ""⟩] [0]
      (by simp [List.range_succ])
      ⟨0, by decide, "attestation has no bundle or bundle URL", rfl⟩⟩

/-! ## Helper lemmas: `getBundle` attempts -/

theorem getBundleAttempt_5xx (deps : BundleDeps π β) (url : String) (i : Nat)
    (resp : HttpResponse) (hg : deps.get url i = .ok resp)
    (h5 : 500 ≤ resp.statusCode ∧ resp.statusCode ≤ 599) :
    getBundleAttempt deps url i =
      .retryable ("attestation bundle with URL " ++ url ++ " returned status code "
        ++ toString resp.statusCode) := by
  unfold getBundleAttempt
  rw [hg]
  simp only [if_pos h5]

theorem getBundleAttempt_snappy_fail (deps : BundleDeps π β) (url : String) (i : Nat)
    (resp : HttpResponse) (e : String) (hg : deps.get url i = .ok resp)
    (h5 : ¬ (500 ≤ resp.statusCode ∧ resp.statusCode ≤ 599))
    (hd : deps.snappyDecode resp.body = .error e) :
    getBundleAttempt deps url i = .permanent ("failed to decompress with snappy: " ++ e) := by
  unfold getBundleAttempt
  rw [hg]
  simp only [if_neg h5, hd]

theorem getBundleAttempt_parse_fail (deps : BundleDeps π β) (url : String) (i : Nat)
    (resp : HttpResponse) (dec : List Nat) (e : String) (hg : deps.get url i = .ok resp)
    (h5 : ¬ (500 ≤ resp.statusCode ∧ resp.statusCode ≤ 599))
    (hd : deps.snappyDecode resp.body = .ok dec)
    (hp : deps.protojsonUnmarshal dec = .error e) :
    getBundleAttempt deps url i = .permanent ("failed to unmarshal to bundle: " ++ e) := by
  unfold getBundleAttempt
  rw [hg]
  simp only [if_neg h5, hd, hp]

theorem getBundleAttempt_construct_fail (deps : BundleDeps π β) (url : String) (i : Nat)
    (resp : HttpResponse) (dec : List Nat) (pb : π) (e : String)
    (hg : deps.get url i = .ok resp)
    (h5 : ¬ (500 ≤ resp.statusCode ∧ resp.statusCode ≤ 599))
    (hd : deps.snappyDecode resp.body = .ok dec)
    (hp : deps.protojsonUnmarshal dec = .ok pb)
    (hn : deps.newBundle pb = .error e) :
    getBundleAttempt deps url i = .permanent ("failed to create new bundle: " ++ e) := by
  unfold getBundleAttempt
  rw [hg]
  simp only [if_neg h5, hd, hp, hn]

/-- Claim C5: within `getBundle`, a 5xx response yields a retryable error
(retried up to `maxAttempts = 4` GETs), whereas a snappy decompression failure,
a protojson parse failure, or a bundle construction failure on a non-5xx
response is a permanent error that short-circuits immediately: exactly 1 GET is
performed and the error is never retried. -/
theorem claimC5_getBundle_error_classes (β π : Type) (deps : BundleDeps π β)
    (url : String) :
    (∀ resp : Nat → HttpResponse,
        (∀ i, deps.get url i = .ok (resp i)) →
        (∀ i, 500 ≤ (resp i).statusCode ∧ (resp i).statusCode ≤ 599) →
        getBundle deps url =
          (.error ("attestation bundle with URL " ++ url ++ " returned status code "
            ++ toString (resp 3).statusCode), 4)) ∧
    (∀ (resp : HttpResponse) (e : String), deps.get url 0 = .ok resp →
        ¬ (500 ≤ resp.statusCode ∧ resp.statusCode ≤ 599) →
        deps.snappyDecode resp.body = .error e →
        getBundle deps url = (.error ("failed to decompress with snappy: " ++ e), 1)) ∧
    (∀ (resp : HttpResponse) (dec : List Nat) (e : String), deps.get url 0 = .ok resp →
        ¬ (500 ≤ resp.statusCode ∧ resp.statusCode ≤ 599) →
        deps.snappyDecode resp.body = .ok dec →
        deps.protojsonUnmarshal dec = .error e →
        getBundle deps url = (.error ("failed to unmarshal to bundle: " ++ e), 1)) ∧
    (∀ (resp : HttpResponse) (dec : List Nat) (pb : π) (e : String),
        deps.get url 0 = .ok resp →
        ¬ (500 ≤ resp.statusCode ∧ resp.statusCode ≤ 599) →
        deps.snappyDecode resp.body = .ok dec →
        deps.protojsonUnmarshal dec = .ok pb →
        deps.newBundle pb = .error e →
        getBundle deps url = (.error ("failed to create new bundle: " ++ e), 1)) := by
  refine ⟨?_, ?_, ?_, ?_⟩
  · intro resp hg h5
    have h : ∀ i, getBundleAttempt deps url i =
        .retryable ("attestation bundle with URL " ++ url ++ " returned status code "
          ++ toString (resp i).statusCode) :=
      fun i => getBundleAttempt_5xx deps url i (resp i) (hg i) (h5 i)
    show retryFrom (getBundleAttempt deps url) 0 3 = _
    rw [retryFrom_step (getBundleAttempt deps url) 0 2 _ (h 0),
      retryFrom_step (getBundleAttempt deps url) 1 1 _ (h 1),
      retryFrom_step (getBundleAttempt deps url) 2 0 _ (h 2),
      retryFrom_last (getBundleAttempt deps url) 3 _ (h 3)]
  · intro resp e hg h5 hd
    show retryFrom (getBundleAttempt deps url) 0 3 = _
    rw [retryFrom_perm (getBundleAttempt deps url) 0 3 _
      (getBundleAttempt_snappy_fail deps url 0 resp e hg h5 hd)]
  · intro resp dec e hg h5 hd hp
    show retryFrom (getBundleAttempt deps url) 0 3 = _
    rw [retryFrom_perm (getBundleAttempt deps url) 0 3 _
      (getBundleAttempt_parse_fail deps url 0 resp dec e hg h5 hd hp)]
  · intro resp dec pb e hg h5 hd hp hn
    show retryFrom (getBundleAttempt deps url) 0 3 = _
    rw [retryFrom_perm (getBundleAttempt deps url) 0 3 _
      (getBundleAttempt_construct_fail deps url 0 resp dec pb e hg h5 hd hp hn)]

/-- Test collaborators for the C5 witness: URL "s" always answers 500; URL "d"
answers 200 with a body snappy rejects; URL "p" answers 200 with a body whose
decompression parses badly; any other URL answers 200 with a body whose parsed
message fails bundle construction. -/
def mockDepsC5 : BundleDeps Nat Nat :=
  { get := fun url _ =>
      if url = "s" then .ok ⟨500, []⟩
      else if url = "d" then .ok ⟨200, [1]⟩
      else if url = "p" then .ok ⟨200, [2]⟩
      else .ok ⟨200, [3]⟩
    snappyDecode := fun b => if b = [1] then .error "bad snappy" else .ok b
    protojsonUnmarshal := fun b => if b = [2] then .error "bad json" else .ok b.length
    newBundle := fun p => if p = 1 then .error "bad bundle" else .ok p }

/-- Witness for C5: with the test collaborators, the always-500 URL fails after
exactly 4 GETs, while the three permanent failures each perform exactly 1 GET. -/
theorem claimC5_witness :
    getBundle mockDepsC5 "s" =
      (.error ("attestation bundle with URL " ++ "s" ++ " returned status code "
        ++ toString ((fun _ => (⟨500, []⟩ : HttpResponse)) 3).statusCode), 4) ∧
    getBundle mockDepsC5 "d" = (.error ("failed to decompress with snappy: " ++ "bad snappy"), 1) ∧
    getBundle mockDepsC5 "p" = (.error ("failed to unmarshal to bundle: " ++ "bad json"), 1) ∧
    getBundle mockDepsC5 "n" = (.error ("failed to create new bundle: " ++ "bad bundle"), 1) :=
  ⟨(claimC5_getBundle_error_classes Nat Nat mockDepsC5 "s").1 (fun _ => ⟨500, []⟩)
      (fun _ => rfl)
      (fun _ => ⟨(by decide : (500 : Int) ≤ 500), (by decide : (500 : Int) ≤ 599)⟩),
    (claimC5_getBundle_error_classes Nat Nat mockDepsC5 "d").2.1 ⟨200, [1]⟩ "bad snappy"
      rfl (by decide) rfl,
    (claimC5_getBundle_error_classes Nat Nat mockDepsC5 "p").2.2.1 ⟨200, [2]⟩ [2] "bad json"
      rfl (by decide) rfl rfl,
    (claimC5_getBundle_error_classes Nat Nat mockDepsC5 "n").2.2.2 ⟨200, [3]⟩ [3] 1 "bad bundle"
      rfl (by decide) rfl rfl rfl⟩

/-- Claim C6: for every limit with `limit ≤ 0` or `limit > 1000`,
`getAttestations` — and hence `GetByRepoAndDigest` and `GetByOwnerAndDigest` —
fails immediately with the input-validation error ("limit must be greater than
0 and less than or equal to 1000"), no collaborator invocation is recorded (no
network call, nothing to retry) and no GET is performed. -/
theorem claimC6_invalid_limit (β π : Type) :
    (∀ (host : String) (pages : List (PageBehavior β)) (url : String) (limit : Int),
        limit ≤ 0 ∨ maxLimitForFlag < limit →
        getAttestations host pages url limit = (.error (.errorf invalidLimitMsg), [])) ∧
    (∀ (c : LiveClient) (pages : List (PageBehavior β)) (deps : BundleDeps π β)
        (order : List Nat) (repo digest : String) (limit : Int),
        limit ≤ 0 ∨ maxLimitForFlag < limit →
        GetByRepoAndDigest c pages deps order repo digest limit =
          (.error (.errorf invalidLimitMsg), [], 0) ∧
        GetByOwnerAndDigest c pages deps order repo digest limit =
          (.error (.errorf invalidLimitMsg), [], 0)) ∧
    invalidLimitMsg = "limit must be greater than 0 and less than or equal to 1000" := by
  refine ⟨?_, ?_, rfl⟩
  · exact fun host pages url limit h => getAttestations_invalid host pages url limit h
  · intro c pages deps order repo digest limit h
    refine ⟨?_, ?_⟩
    · unfold GetByRepoAndDigest getByURL
      rw [getAttestations_invalid c.host pages
        (GetAttestationByRepoAndSubjectDigestPath repo digest) limit h]
    · unfold GetByOwnerAndDigest getByURL
      rw [getAttestations_invalid c.host pages
        (GetAttestationByOwnerAndSubjectDigestPath repo digest) limit h]

/-- Witness for C6: `limit = 0` and `limit = 1001` fail with the
input-validation error and an empty invocation record. -/
theorem claimC6_witness :
    getAttestations "h" ([] : List (PageBehavior Unit)) "u" 0 =
      (.error (.errorf invalidLimitMsg), []) ∧
    GetByRepoAndDigest ⟨"h"⟩ ([] : List (PageBehavior Nat)) mockDeps [] "r" "d" 1001 =
      (.error (.errorf invalidLimitMsg), [], 0) :=
  ⟨(claimC6_invalid_limit Unit Unit).1 "h" [] "u" 0 (.inl (by decide)),
    ((claimC6_invalid_limit Nat Nat).2.1 ⟨"h"⟩ [] mockDeps [] "r" "d" 1001
      (.inr (by decide))).1⟩

/-- Claim C7: if all page fetches succeed but zero attestations are accumulated
across all pages, `getAttestations` fails with the dedicated sentinel
`ErrNoAttestationsFound` ("no attestations found"), which is distinct by
construction from any propagated network error and from any
`fmt.Errorf`-created error. -/
theorem claimC7_no_attestations_sentinel (β : Type) (host url : String) (limit : Int)
    (rs : List (PageResp β)) (h1 : 0 < limit) (h2 : limit ≤ maxLimitForFlag)
    (hc : Chain rs) (hempty : totalAtts rs = []) :
    (getAttestations host (pureBehaviors rs) url limit).1 =
      .error ErrNoAttestationsFound ∧
    (∀ e, ErrNoAttestationsFound ≠ ApiError.rest e) ∧
    (∀ m, ErrNoAttestationsFound ≠ ApiError.errorf m) ∧
    ErrNoAttestationsFound.message = "no attestations found" := by
  refine ⟨?_, fun e h => ApiError.noConfusion h, fun m h => ApiError.noConfusion h, rfl⟩
  rw [getAttestations_valid host _ url limit h1 h2]
  rcases hL : getAttsLoop host limit.toNat (pureBehaviors rs) (firstRequestURL url limit) []
    with ⟨r1, r2⟩
  have hfst := getAttsLoop_pure_fst host limit.toNat rs hc (firstRequestURL url limit) []
    (firstRequestURL_ne_empty url limit)
  rw [hL] at hfst
  simp only at hfst
  subst hfst
  simp only
  have htake : (loopSpec limit.toNat rs []).take limit.toNat = [] := by
    have h3 := loopSpec_take limit.toNat rs []
    simpa [hempty] using h3
  have hnil : loopSpec limit.toNat rs [] = [] := by
    rcases List.take_eq_nil_iff.mp htake with h3 | h3
    · omega
    · exact h3
  rw [hnil]
  rfl

/-- Witness for C7: a two-page chain whose pages both carry zero attestations
fails with the sentinel. -/
theorem claimC7_witness :
    (getAttestations "h"
        (pureBehaviors [(⟨[], "page2"⟩ : PageResp Unit), ⟨[], ""⟩]) "u" 30).1 =
      .error ErrNoAttestationsFound :=
  (claimC7_no_attestations_sentinel Unit "h" "u" 30 [⟨[], "page2"⟩, ⟨[], ""⟩]
      (by decide) (by decide)
      (Chain.cons _ _ (by decide) (Chain.single _ rfl)) (by decide)).1

/-- Counterexample to Claim C8 as stated: a connection failure (an error that is
not an `api.HTTPError`, modelled as `RestErr.net`) is NOT retried by the
retrying executor used for the REST page fetches and the trust-domain fetch:
with an operation failing on every attempt with a connection error, the
executor stops after exactly 1 invocation (not `maxAttempts = 4`), because
`shouldRetry` only accepts HTTP 5xx errors and everything else is wrapped in
`backoff.Permanent`. -/
theorem claimC8_counterexample :
    fetchPage (fun _ => (.error (.net "connection refused") : Except RestErr (PageResp Unit))) =
      (.error (.net "connection refused"), 1) ∧
    getTrustDomain ⟨"h"⟩ (fun _ => .error (.net "connection refused")) "meta-url" =
      (.error (.net "connection refused"), [⟨"h", "meta-url"⟩]) :=
  ⟨rfl, rfl⟩

/-- Claim C8 (amended): among transient errors, 5xx server errors are retried up
to `maxAttempts` with constant backoff by the retrying executor used for the
REST page fetches and the trust-domain fetch, and only after retries are
exhausted is the error propagated; connection failures (errors without an HTTP
status) are classified non-retryable by `shouldRetry` there and are propagated
immediately after a single attempt. -/
theorem claimC8_amended (β : Type) :
    (∀ (p : PageBehavior β) (e : RestErr), shouldRetry e = true →
        (∀ i, p i = .error e) → fetchPage p = (.error e, 4)) ∧
    (∀ (c : LiveClient) (op : Nat → Except RestErr MetaResponse) (url : String)
        (e : RestErr), shouldRetry e = true → (∀ i, op i = .error e) →
        getTrustDomain c op url = (.error e, List.replicate 4 ⟨c.host, url⟩)) ∧
    (∀ (p : PageBehavior β) (e : RestErr), shouldRetry e = false →
        p 0 = .error e → fetchPage p = (.error e, 1)) ∧
    (∀ (c : LiveClient) (op : Nat → Except RestErr MetaResponse) (url : String)
        (e : RestErr), shouldRetry e = false → op 0 = .error e →
        getTrustDomain c op url = (.error e, List.replicate 1 ⟨c.host, url⟩)) ∧
    (∀ (s : Int) (m : String), 500 ≤ s → s ≤ 599 → shouldRetry (.http s m) = true) ∧
    (∀ m, shouldRetry (.net m) = false) := by
  refine ⟨?_, ?_, ?_, ?_, fun s m h1 h2 => shouldRetry_http s m h1 h2, fun m => rfl⟩
  · intro p e he hp
    have h : ∀ i, classify (p i) = Attempt.retryable e := fun i => by
      rw [hp i, classify_retryable _ he]
    show retryFrom (fun i => classify (p i)) 0 3 = _
    rw [retryFrom_step (fun i => classify (p i)) 0 2 _ (h 0),
      retryFrom_step (fun i => classify (p i)) 1 1 _ (h 1),
      retryFrom_step (fun i => classify (p i)) 2 0 _ (h 2),
      retryFrom_last (fun i => classify (p i)) 3 _ (h 3)]
  · intro c op url e he hop
    have h : ∀ i, classify (op i) = Attempt.retryable e := fun i => by
      rw [hop i, classify_retryable _ he]
    have hb : backoffRetry defaultRetryPolicy (fun i => classify (op i)) = (.error e, 4) := by
      show retryFrom (fun i => classify (op i)) 0 3 = _
      rw [retryFrom_step (fun i => classify (op i)) 0 2 _ (h 0),
        retryFrom_step (fun i => classify (op i)) 1 1 _ (h 1),
        retryFrom_step (fun i => classify (op i)) 2 0 _ (h 2),
        retryFrom_last (fun i => classify (op i)) 3 _ (h 3)]
    simp [getTrustDomain, hb]
  · intro p e he hp
    have h : classify (p 0) = Attempt.permanent e := by
      rw [hp, classify_permanent _ he]
    show retryFrom (fun i => classify (p i)) 0 3 = _
    rw [retryFrom_perm (fun i => classify (p i)) 0 3 _ h]
  · intro c op url e he hop
    have h : classify (op 0) = Attempt.permanent e := by
      rw [hop, classify_permanent _ he]
    have hb : backoffRetry defaultRetryPolicy (fun i => classify (op i)) = (.error e, 1) := by
      show retryFrom (fun i => classify (op i)) 0 3 = _
      rw [retryFrom_perm (fun i => classify (op i)) 0 3 _ h]
    simp [getTrustDomain, hb]

/-- Witness for the amended C8: a page fetch failing with 500 on every attempt
is invoked 4 times; a trust-domain fetch failing with 503 on every attempt
records 4 invocations; a page fetch hitting a 404 and a trust-domain fetch
hitting a connection failure each record exactly 1 invocation. -/
theorem claimC8_witness :
    fetchPage (fun _ => (.error (.http 500 "server") : Except RestErr (PageResp Unit))) =
      (.error (.http 500 "server"), 4) ∧
    getTrustDomain ⟨"h"⟩ (fun _ => .error (.http 503 "server")) "m" =
      (.error (.http 503 "server"), List.replicate 4 ⟨"h", "m"⟩) ∧
    fetchPage (fun _ => (.error (.http 404 "not found") : Except RestErr (PageResp Unit))) =
      (.error (.http 404 "not found"), 1) ∧
    getTrustDomain ⟨"h"⟩ (fun _ => .error (.net "refused")) "m" =
      (.error (.net "refused"), List.replicate 1 ⟨"h", "m"⟩) ∧
    shouldRetry (.http 500 "server") = true ∧
    shouldRetry (.net "refused") = false :=
  ⟨(claimC8_amended Unit).1 _ (.http 500 "server") (by decide) (fun _ => rfl),
    (claimC8_amended Unit).2.1 ⟨"h"⟩ _ "m" (.http 503 "server") (by decide) (fun _ => rfl),
    (claimC8_amended Unit).2.2.1 _ (.http 404 "not found") (by decide) rfl,
    (claimC8_amended Unit).2.2.2.1 ⟨"h"⟩ _ "m" (.net "refused") rfl rfl,
    (claimC8_amended Unit).2.2.2.2.1 500 "server" (by decide) (by decide),
    (claimC8_amended Unit).2.2.2.2.2 "refused"⟩

/-- Claim C9: for every valid limit, the page size used for attestation listing
is `min(limit, 100)`, and it is passed as the query parameter `per_page=<n>`
appended to the listing path on the first request. -/
theorem claimC9_per_page_query (β : Type) (host url : String) (limit : Int)
    (p : PageBehavior β) (ps : List (PageBehavior β))
    (h1 : 0 < limit) (h2 : limit ≤ maxLimitForFlag) :
    (getAttestations host (p :: ps) url limit).2.head? =
      some ⟨host, url ++ "?per_page=" ++ toString (min limit maxLimitForFetch)⟩ ∧
    firstRequestURL url limit =
      url ++ "?per_page=" ++ toString (min limit maxLimitForFetch) := by
  have hfru : firstRequestURL url limit =
      url ++ "?per_page=" ++ toString (min limit maxLimitForFetch) := by
    unfold firstRequestURL
    rw [perPage_eq_min]
  refine ⟨?_, hfru⟩
  rw [getAttestations_valid host _ url limit h1 h2]
  rcases hL : getAttsLoop host limit.toNat (p :: ps) (firstRequestURL url limit) []
    with ⟨r1, r2⟩
  have hh := getAttsLoop_calls_head host limit.toNat p ps (firstRequestURL url limit) []
    (firstRequestURL_ne_empty url limit) (by simp only [List.length_nil]; omega)
  rw [hL] at hh
  simp only at hh
  rw [hfru] at hh
  cases r1
  · simpa using hh
  · simpa using hh

/-- Witness for C9: with `limit = 150` the first request carries
`per_page=100` (the cap), appended to the listing path. -/
theorem claimC9_witness :
    (getAttestations "h" ((fun _ => .ok ⟨[], ""⟩) :: ([] : List (PageBehavior Unit)))
        "repos/r/attestations/d" 150).2.head? =
      some ⟨"h", "repos/r/attestations/d" ++ "?per_page=" ++
        toString (min (150 : Int) maxLimitForFetch)⟩ :=
  (claimC9_per_page_query Unit "h" "repos/r/attestations/d" 150 _ []
      (by decide) (by decide)).1

/-- Claim C10 (implicit): `NewLiveClient` stores the host with a single trailing
"/" removed if present (a host without one is stored unchanged), and this
normalized host is the one used by every REST call the client makes. -/
theorem claimC10_host_normalization (β π : Type) :
    (∀ l : List Char, (NewLiveClient ⟨l ++ ['/']⟩).host = ⟨l⟩) ∧
    (∀ host : String, ¬ List.IsSuffix ['/'] host.data → NewLiveClient host = ⟨host⟩) ∧
    (NewLiveClient "github.com/").host = "github.com" ∧
    (NewLiveClient "github.com").host = "github.com" ∧
    (∀ (host : String) (pages : List (PageBehavior β)) (deps : BundleDeps π β)
        (order : List Nat) (repo digest : String) (limit : Int),
        ∀ call ∈ (GetByRepoAndDigest (NewLiveClient host) pages deps order
          repo digest limit).2.1, call.host = trimSuffix host "/") ∧
    (∀ (host : String) (op : Nat → Except RestErr MetaResponse),
        ∀ call ∈ (GetTrustDomain (NewLiveClient host) op).2,
          call.host = trimSuffix host "/") := by
  refine ⟨?_, ?_, by decide, by decide, ?_, ?_⟩
  · intro l
    show trimSuffix ⟨l ++ ['/']⟩ "/" = ⟨l⟩
    unfold trimSuffix
    rw [if_pos ⟨l, rfl⟩]
    simp [List.length_append, List.take_left]
  · intro host h
    show LiveClient.mk (trimSuffix host "/") = ⟨host⟩
    unfold trimSuffix
    rw [if_neg h]
  · intro host pages deps order repo digest limit call hcall
    unfold GetByRepoAndDigest at hcall
    rw [getByURL_calls] at hcall
    exact getAttestations_calls_host (NewLiveClient host).host pages _ limit call hcall
  · intro host op call hcall
    unfold GetTrustDomain getTrustDomain at hcall
    rcases hr : backoffRetry defaultRetryPolicy (fun i => classify (op i)) with ⟨res, n⟩
    simp only [hr] at hcall
    cases res <;> simp only [] at hcall <;>
      exact (List.eq_of_mem_replicate (by simpa using hcall) :
        call = ⟨(NewLiveClient host).host, MetaPath⟩) ▸ rfl

/-- Witness for C10: concrete hosts with and without a trailing slash, and a
concrete recorded REST call of a client built from a slash-terminated host. -/
theorem claimC10_witness :
    (NewLiveClient ⟨['a', '/']⟩).host = ⟨['a']⟩ ∧
    NewLiveClient "github.com" = ⟨"github.com"⟩ ∧
    (⟨"gh.io", "meta"⟩ : RestCall).host = trimSuffix "gh.io/" "/" :=
  ⟨(claimC10_host_normalization Unit Unit).1 ['a'],
    (claimC10_host_normalization Unit Unit).2.1 "github.com" (by decide),
    (claimC10_host_normalization Unit Unit).2.2.2.2.2 "gh.io/"
      (fun _ => .error (.net "x")) ⟨"gh.io", "meta"⟩ (by decide)⟩

end GhAttestClient
